import Mathlib

set_option autoImplicit false

/-!
Shallow embedding of the authentication/session core of the
dioxus-template repository (crates/server/src/auth and the auth
handlers in crates/server/src/api.rs, plus the tier model in
crates/shared-types/src/models.rs), together with proofs of the
behavioral claims about that core.

Machine integers (i64 timestamps, user ids) are modelled as Int;
timestamps of the in-memory OAuth state store (Rust Instant values)
are modelled as Nat nanosecond counts, matching the nanosecond
precision of Instant and the truncating as_secs conversion.
-/

namespace DioxusAuth

/-! ## Tier model (crates/shared-types/src/models.rs) -/

/-- User subscription tier controlling feature access. -/
inductive UserTier where
  | Free
  | Premium
  | Elite
deriving DecidableEq, Repr

/-- Numeric rank for tier comparison. -/
def UserTier.rank : UserTier → Nat
  | UserTier.Free => 0
  | UserTier.Premium => 1
  | UserTier.Elite => 2

/-- Check if this tier grants access to a feature requiring the given tier. -/
def UserTier.has_access (self required : UserTier) : Bool :=
  required.rank ≤ self.rank

/-- Rust str::to_lowercase, modelled character by character; the tier
and provider names it is applied to are plain ASCII, where the
per-character mapping agrees with the Unicode one. -/
def toLowercase (s : String) : String :=
  ⟨s.data.map Char.toLower⟩

/-- Parse a tier string, defaulting to Free for unknown values. -/
def UserTier.from_str_or_default (s : String) : UserTier :=
  match toLowercase s with
  | "premium" => UserTier.Premium
  | "elite" => UserTier.Elite
  | _ => UserTier.Free

/-- Serialize to lowercase string for database storage. -/
def UserTier.as_str : UserTier → String
  | UserTier.Free => "free"
  | UserTier.Premium => "premium"
  | UserTier.Elite => "elite"

/-! ## Token codec (crates/server/src/auth/jwt.rs) -/

/-- JWT claims stored in access and refresh tokens.  The jti field is
an optional unique token identifier; the uuid value is abstracted as a
Nat drawn from a fresh supply. -/
structure Claims where
  sub : Int
  email : String
  role : String
  tier : String
  exp : Int
  iat : Int
  jti : Option Nat
deriving DecidableEq, Repr

/-- Environment configuration read by the jwt module: the signing
secret and the raw values of the two expiry variables (None when the
variable is unset). -/
structure Env where
  jwt_secret : String
  access_expiry_var : Option String
  refresh_expiry_var : Option String
deriving DecidableEq, Repr

/-- JWT_ACCESS_TOKEN_EXPIRY_MINUTES parsed as i64, defaulting to 15.
String.toInt? stands in for the std i64 FromStr parse. -/
def access_token_expiry_minutes (e : Env) : Int :=
  (e.access_expiry_var.bind String.toInt?).getD 15

/-- JWT_REFRESH_TOKEN_EXPIRY_DAYS parsed as i64, defaulting to 7. -/
def refresh_token_expiry_days (e : Env) : Int :=
  (e.refresh_expiry_var.bind String.toInt?).getD 7

/-- A signed token.  The jsonwebtoken encode call is modelled at its
boundary: a token is its (injectively serialized) claims payload
together with the secret it was signed with; signature verification
succeeds exactly when the verifying secret equals the signing one. -/
structure Token where
  claims : Claims
  sig : String
deriving DecidableEq, Repr

/-- Validation failure of the token codec: bad signature or malformed
token, or expired payload. -/
inductive JwtError where
  | Invalid
  | Expired
deriving DecidableEq, Repr

/-- create_access_token: claims carry the inputs, iat = now,
exp = now + configured minutes.  The fresh uuid jti is supplied by the
caller from a fresh-name supply.  The Rust encode error path cannot
fire for HMAC signing of serializable claims, so issuance is total. -/
def create_access_token (e : Env) (now : Int) (jti : Nat) (user_id : Int)
    (email role tier : String) : Token :=
  { claims :=
      { sub := user_id, email := email, role := role, tier := tier
        iat := now
        exp := now + 60 * access_token_expiry_minutes e
        jti := some jti }
    sig := e.jwt_secret }

/-- create_refresh_token: returns the token and the absolute expiry
(epoch seconds) for persistence; exp = the returned expiry. -/
def create_refresh_token (e : Env) (now : Int) (jti : Nat) (user_id : Int)
    (email role tier : String) : Token × Int :=
  let expires_at := now + 86400 * refresh_token_expiry_days e
  ({ claims :=
       { sub := user_id, email := email, role := role, tier := tier
         iat := now
         exp := expires_at
         jti := some jti }
     sig := e.jwt_secret },
   expires_at)

/-- validate_access_token: decode verifies the signature first and
then the exp claim; claims are produced only when both pass. -/
def validate_access_token (e : Env) (now : Int) (t : Token) :
    Except JwtError Claims :=
  if t.sig ≠ e.jwt_secret then Except.error JwtError.Invalid
  else if t.claims.exp < now then Except.error JwtError.Expired
  else Except.ok t.claims

/-! ## Credential store (refresh_tokens table, as used by
crates/server/src/auth/middleware.rs and crates/server/src/api.rs) -/

/-- One persisted row of the refresh_tokens table.  token_hash is the
token string itself, used as the lookup key. -/
structure RefreshRecord where
  id : Nat
  user_id : Int
  token_hash : Token
  expires_at : Int
  revoked : Bool
deriving DecidableEq, Repr

/-- SELECT id, revoked FROM refresh_tokens WHERE token_hash = $1 AND
user_id = $2, with fetch_optional: the first matching row, if any. -/
def find_refresh_record (db : List RefreshRecord) (tok : Token) (uid : Int) :
    Option RefreshRecord :=
  db.find? (fun rec => decide (rec.token_hash = tok ∧ rec.user_id = uid))

/-- UPDATE refresh_tokens SET revoked = TRUE WHERE id = $1. -/
def revoke_by_id (db : List RefreshRecord) (rid : Nat) : List RefreshRecord :=
  db.map (fun rec => if rec.id = rid then { rec with revoked := true } else rec)

/-- INSERT INTO refresh_tokens (user_id, token_hash, expires_at)
VALUES ($1, $2, $3); the generated row id is supplied by the caller
from a fresh-name supply. -/
def insert_refresh_record (db : List RefreshRecord) (uid : Int) (tok : Token)
    (expires : Int) (new_id : Nat) : List RefreshRecord :=
  db ++ [{ id := new_id, user_id := uid, token_hash := tok
           expires_at := expires, revoked := false }]

/-! ## Session middleware (crates/server/src/auth/middleware.rs) -/

/-- Pending cookie action scheduled by a server function, applied by
the middleware after the handler runs.  Modelled from the spec:
crates/server/src/auth/cookies.rs is not present under src; per the
spec a Pending Cookie Action is either set-both-auth-cookies or
clear-auth-cookies, at most one per request, last write wins. -/
inductive PendingCookieAction where
  | Set : Token → Token → PendingCookieAction
  | Clear : PendingCookieAction
deriving DecidableEq, Repr

/-- Final state of the auth cookie headers on the outbound response.
Modelled from the spec: set_auth_cookies overwrites both auth cookies
with the given pair and clear_auth_cookies empties both, so the
response carries whichever write happened last. -/
inductive AuthCookies where
  | unchanged
  | set : Token → Token → AuthCookies
  | cleared
deriving DecidableEq, Repr

/-- try_transparent_refresh: validate the refresh token signature and
expiry, look up a matching non-revoked stored record, revoke it, issue
a new access+refresh pair, persist the new refresh record, and return
the new pair together with the claims of the new access token.  The
function returns the database as left by the attempt (mutations
performed before a late failure persist) and the optional
(new_access, new_refresh, new_claims) result. -/
def try_transparent_refresh (e : Env) (now : Int) (jtiA jtiR new_id : Nat)
    (db : List RefreshRecord) (refresh_token : Token) :
    List RefreshRecord × Option (Token × Token × Claims) :=
  match validate_access_token e now refresh_token with
  | Except.error _ => (db, none)
  | Except.ok claims =>
    match find_refresh_record db refresh_token claims.sub with
    | none => (db, none)
    | some stored =>
      if stored.revoked then (db, none)
      else
        let db1 := revoke_by_id db stored.id
        let new_access :=
          create_access_token e now jtiA claims.sub claims.email claims.role claims.tier
        let nr :=
          create_refresh_token e now jtiR claims.sub claims.email claims.role claims.tier
        let db2 := insert_refresh_record db1 claims.sub nr.1 nr.2 new_id
        match validate_access_token e now new_access with
        | Except.error _ => (db2, none)
        | Except.ok new_claims => (db2, some (new_access, nr.1, new_claims))

/-- The identity-resolution phase of auth_middleware (everything
before the downstream handler runs): resolved claims inserted into the
request extensions, cookies staged by a transparent refresh, and the
credential store as left by the refresh attempt.  The access and
refresh credentials are the results of cookie extraction; modelled
from the spec: cookies.rs extraction yields the optional access-token
credential (cookie primary, bearer fallback) and the optional
refresh-token cookie. -/
structure AuthPhase where
  claims : Option Claims
  refresh_cookies : Option (Token × Token)
  db : List RefreshRecord
deriving Repr

/-- Steps 1-3 of auth_middleware: validate the access credential,
attach claims on success, otherwise attempt transparent refresh from
the refresh credential; on any failure proceed without claims. -/
def auth_middleware_phase (e : Env) (now : Int) (jtiA jtiR new_id : Nat)
    (db : List RefreshRecord) (access_cookie refresh_cookie : Option Token) :
    AuthPhase :=
  match access_cookie with
  | none => { claims := none, refresh_cookies := none, db := db }
  | some token =>
    match validate_access_token e now token with
    | Except.ok claims => { claims := some claims, refresh_cookies := none, db := db }
    | Except.error _ =>
      match refresh_cookie with
      | none => { claims := none, refresh_cookies := none, db := db }
      | some refresh_token =>
        match try_transparent_refresh e now jtiA jtiR new_id db refresh_token with
        | (db1, none) => { claims := none, refresh_cookies := none, db := db1 }
        | (db1, some (a, r, c)) =>
          { claims := some c, refresh_cookies := some (a, r), db := db1 }

/-- auth_middleware end to end: resolve the identity, run the
downstream handler with it, then apply refresh cookies and afterwards
any pending cookie action (last write wins on the same cookie names).
The downstream handler is abstracted as a function of the resolved
identity returning a response body and an optional staged cookie
action; the middleware itself has no error outcome, mirroring the
plain Response return type of the Rust function. -/
def auth_middleware {A : Type} (e : Env) (now : Int) (jtiA jtiR new_id : Nat)
    (db : List RefreshRecord) (access_cookie refresh_cookie : Option Token)
    (handler : Option Claims → A × Option PendingCookieAction) :
    A × AuthCookies × List RefreshRecord :=
  let phase := auth_middleware_phase e now jtiA jtiR new_id db access_cookie refresh_cookie
  let handled := handler phase.claims
  let afterRefresh : AuthCookies :=
    match phase.refresh_cookies with
    | some (a, r) => AuthCookies.set a r
    | none => AuthCookies.unchanged
  let final : AuthCookies :=
    match handled.2 with
    | some (PendingCookieAction.Set a r) => AuthCookies.set a r
    | some PendingCookieAction.Clear => AuthCookies.cleared
    | none => afterRefresh
  (handled.1, final, phase.db)

/-! ## OAuth state cache (crates/server/src/auth/oauth_state.rs)

Instants are modelled as Nat nanosecond counts from an arbitrary
origin; Duration::as_secs is truncating division by 10^9. -/

/-- CSRF state entry with PKCE verifier and creation timestamp. -/
structure StateEntry where
  verifier : String
  created_at : Nat
deriving DecidableEq, Repr

/-- TTL for CSRF state entries, in seconds. -/
def STATE_TTL_SECS : Nat := 600

/-- Nanoseconds in one second. -/
def nanosPerSec : Nat := 1000000000

/-- store_state: prune entries older than the TTL, then insert the new
entry stamped with the current time.  The retain condition
created_at > now - TTL is written additively to avoid Nat underflow.
The HashMap is modelled as a key-unique association list; insert
removes any entry with the same key and appends the new one. -/
def store_state (now : Nat) (store : List (String × StateEntry))
    (state verifier : String) : List (String × StateEntry) :=
  let pruned := store.filter
    (fun p => decide (now < p.2.created_at + STATE_TTL_SECS * nanosPerSec))
  pruned.filter (fun p => !(p.1 == state)) ++ [(state, ⟨verifier, now⟩)]

/-- take_verifier: remove the entry for the state if present; reject
it when the elapsed whole seconds exceed the TTL; otherwise return the
verifier.  Returns the store after the call and the optional
verifier. -/
def take_verifier (now : Nat) (store : List (String × StateEntry))
    (state : String) : List (String × StateEntry) × Option String :=
  match store.find? (fun p => p.1 == state) with
  | none => (store, none)
  | some entry =>
    let store1 := store.filter (fun p => !(p.1 == state))
    let elapsed := (now - entry.2.created_at) / nanosPerSec
    if STATE_TTL_SECS < elapsed then (store1, none)
    else (store1, some entry.2.verifier)

/-! ## Auth handlers (crates/server/src/api.rs) -/

/-- Error taxonomy (crates/shared-types/src/error.rs). -/
inductive AppErrorKind where
  | NotFound
  | ValidationError
  | DatabaseError
  | Unauthorized
  | Forbidden
  | InternalError
deriving DecidableEq, Repr

/-- Structured application error; field_errors is the per-field
message map, modelled as an association list. -/
structure AppError where
  kind : AppErrorKind
  message : String
  field_errors : List (String × String)
deriving DecidableEq, Repr

/-- AppError::unauthorized. -/
def AppError.unauthorized (message : String) : AppError :=
  { kind := AppErrorKind.Unauthorized, message := message, field_errors := [] }

/-- AppError::validation. -/
def AppError.validation (message : String) (fe : List (String × String)) : AppError :=
  { kind := AppErrorKind.ValidationError, message := message, field_errors := fe }

/-- One row of the users table as selected by login. -/
structure UserRow where
  id : Int
  username : String
  display_name : String
  email : Option String
  password_hash : Option String
  role : String
  tier : String
  avatar_url : Option String
deriving DecidableEq, Repr

/-- Authenticated user info returned to the client. -/
structure AuthUser where
  id : Int
  username : String
  display_name : String
  email : String
  role : String
  tier : UserTier
  avatar_url : Option String
deriving DecidableEq, Repr

/-- SELECT ... FROM users WHERE email = $1 with fetch_optional; a SQL
equality against a NULL email column matches nothing. -/
def find_user_by_email (users : List UserRow) (email : String) : Option UserRow :=
  users.find? (fun u => decide (u.email = some email))

/-- Validation of LoginRequest as derived from the external validator
library (email format rule and length(min = 8) on the password, field
errors collected into AppError::validation with message
"Validation failed").  The external email-format check is abstracted
as the emailValid parameter; the password length rule counts
characters. -/
def validate_login_request (emailValid : String → Bool)
    (email password : String) : Except AppError Unit :=
  let errs : List (String × String) :=
    (if emailValid email then [] else [("email", "Valid email is required")]) ++
    (if password.length < 8 then
      [("password", "Password must be at least 8 characters")]
    else [])
  if errs = [] then Except.ok ()
  else Except.error (AppError.validation "Validation failed" errs)

/-- login: validate the request, look up the user by email, verify the
password against the stored hash, then issue a token pair, persist the
refresh record, and schedule the auth cookies.  Returns the refresh
store after the call, the scheduled cookie action, and the result.
The password verifier is a parameter; modelled from the spec:
crates/server/src/auth/password.rs is not present under src, and per
the spec verify is total — it never throws on malformed hashes and
returns false instead, so the internal-error branch of the Rust code
cannot fire. -/
def login (emailValid : String → Bool) (verify_password : String → String → Bool)
    (e : Env) (now : Int) (jtiA jtiR new_id : Nat)
    (users : List UserRow) (db : List RefreshRecord)
    (email password : String) :
    List RefreshRecord × Option PendingCookieAction × Except AppError AuthUser :=
  match validate_login_request emailValid email password with
  | Except.error err => (db, none, Except.error err)
  | Except.ok _ =>
    match find_user_by_email users email with
    | none => (db, none, Except.error (AppError.unauthorized "Invalid email or password"))
    | some user =>
      match user.password_hash with
      | none => (db, none, Except.error (AppError.unauthorized "Invalid email or password"))
      | some password_hash =>
        if !(verify_password password password_hash) then
          (db, none, Except.error (AppError.unauthorized "Invalid email or password"))
        else
          let user_email := user.email.getD ""
          let user_tier := UserTier.from_str_or_default user.tier
          let access_token :=
            create_access_token e now jtiA user.id user_email user.role user_tier.as_str
          let nr :=
            create_refresh_token e now jtiR user.id user_email user.role user_tier.as_str
          let db1 := insert_refresh_record db user.id nr.1 nr.2 new_id
          (db1, some (PendingCookieAction.Set access_token nr.1),
           Except.ok
             { id := user.id, username := user.username
               display_name := user.display_name, email := user_email
               role := user.role, tier := user_tier
               avatar_url := user.avatar_url })

/-- logout: if a request context with a valid access token is present,
revoke every non-revoked refresh row of that user (UPDATE ... WHERE
user_id = $1 AND revoked = FALSE), swallowing any write failure; in
every case schedule a cookie clear and succeed.  The access credential
is the result of cookie extraction (modelled from the spec: cookies.rs
is not present under src); a missing request context and a missing
cookie both appear as none.  write_ok = false models a failing
revocation write, whose effect on the store is lost. -/
def logout (e : Env) (now : Int) (access_cookie : Option Token)
    (write_ok : Bool) (db : List RefreshRecord) :
    List RefreshRecord × PendingCookieAction × Except AppError Unit :=
  let db1 :=
    match access_cookie with
    | none => db
    | some token =>
      match validate_access_token e now token with
      | Except.error _ => db
      | Except.ok claims =>
        if write_ok then
          db.map (fun rec =>
            if rec.user_id = claims.sub ∧ rec.revoked = false then
              { rec with revoked := true }
            else rec)
        else db
  (db1, PendingCookieAction.Clear, Except.ok ())

/-! ## Concrete fixtures used by witness theorems -/

/-- A concrete environment: secret set, both expiry variables unset,
so the defaults (15 minutes, 7 days) apply. -/
def env0 : Env :=
  { jwt_secret := "secret", access_expiry_var := none, refresh_expiry_var := none }

/-- A concrete refresh-style token for user 7, signed with the env0
secret, issued at 0 and expiring at 604800 (7 days). -/
def tok0 : Token :=
  { claims :=
      { sub := 7, email := "a@b.c", role := "user", tier := "free"
        exp := 604800, iat := 0, jti := some 0 }
    sig := "secret" }

/-- A one-row credential store holding the record of tok0. -/
def db0 : List RefreshRecord :=
  [{ id := 1, user_id := 7, token_hash := tok0, expires_at := 604800, revoked := false }]

/-- The access token minted by a transparent refresh of tok0 in env0
at time 0 with jti 10. -/
def accessC : Token := create_access_token env0 0 10 7 "a@b.c" "user" "free"

/-- The refresh token minted by a transparent refresh of tok0 in env0
at time 0 with jti 11. -/
def refreshC : Token := (create_refresh_token env0 0 11 7 "a@b.c" "user" "free").1

/-- The credential store after that transparent refresh: the old
record revoked, the new record appended with row id 2. -/
def db2C : List RefreshRecord :=
  [{ id := 1, user_id := 7, token_hash := tok0, expires_at := 604800, revoked := true },
   { id := 2, user_id := 7, token_hash := refreshC, expires_at := 604800, revoked := false }]

/-- The ways the credential-resolution chain of auth_middleware can
fail: no access credential at all, or an invalid or expired access
credential together with either a missing refresh cookie or a
transparent-refresh attempt that returns nothing (refresh token
invalid or expired, record missing or revoked, or a late issuance
failure). -/
def auth_chain_failed (e : Env) (now : Int) (jtiA jtiR new_id : Nat)
    (db : List RefreshRecord) (access_cookie refresh_cookie : Option Token) : Prop :=
  access_cookie = none ∨
  ∃ token, access_cookie = some token ∧
    (∃ err, validate_access_token e now token = Except.error err) ∧
    (refresh_cookie = none ∨
     ∃ rt, refresh_cookie = some rt ∧
       (try_transparent_refresh e now jtiA jtiR new_id db rt).2 = none)

/-! ## Helper lemmas -/

/-- Inversion of a successful validation: the produced claims are the
payload of the token, the signature matches, and the token is not
expired. -/
theorem validate_ok_inv (e : Env) (now : Int) (t : Token) (c : Claims)
    (h : validate_access_token e now t = Except.ok c) :
    c = t.claims ∧ t.sig = e.jwt_secret ∧ ¬ t.claims.exp < now := by
  unfold validate_access_token at h
  by_cases hs : t.sig ≠ e.jwt_secret
  · rw [if_pos hs] at h
    cases h
  · rw [if_neg hs] at h
    by_cases he : t.claims.exp < now
    · rw [if_pos he] at h
      cases h
    · rw [if_neg he] at h
      exact ⟨(Except.ok.injEq _ _).mp h.symm, not_not.mp hs, he⟩

/-- Validating a freshly created access token at its issuance time
succeeds whenever the configured lifetime is nonnegative. -/
theorem validate_create_access_ok (e : Env) (now : Int) (jti : Nat) (uid : Int)
    (email role tier : String) (hm : 0 ≤ access_token_expiry_minutes e) :
    validate_access_token e now (create_access_token e now jti uid email role tier)
      = Except.ok (create_access_token e now jti uid email role tier).claims := by
  unfold validate_access_token
  rw [if_neg (by simp [create_access_token]), if_neg (by simp [create_access_token]; omega)]

/-! ## Claim theorems -/

/-- Claim C9: every string whose lowercase form is none of the three
known tier names parses to Free — the function is total and defaults
to the lowest tier, never escalating. -/
theorem from_str_or_default_unknown_is_free (s : String)
    (_hf : toLowercase s ≠ "free") (hp : toLowercase s ≠ "premium")
    (he : toLowercase s ≠ "elite") :
    UserTier.from_str_or_default s = UserTier.Free := by
  unfold UserTier.from_str_or_default
  split
  · next h => exact absurd h hp
  · next h => exact absurd h he
  · rfl

/-- Witness for C9 at the concrete unknown tier string "gold". -/
theorem from_str_or_default_unknown_is_free_witness :
    UserTier.from_str_or_default "gold" = UserTier.Free :=
  from_str_or_default_unknown_is_free "gold" (by decide) (by decide) (by decide)

/-- Claim C3: every token whose embedded expiry is in the past at the
time of the call fails validation, whatever its signature. -/
theorem validate_access_token_expired_fails (e : Env) (now : Int) (t : Token)
    (h : t.claims.exp < now) :
    ∃ err, validate_access_token e now t = Except.error err := by
  unfold validate_access_token
  by_cases hs : t.sig ≠ e.jwt_secret
  · exact ⟨JwtError.Invalid, by rw [if_pos hs]⟩
  · exact ⟨JwtError.Expired, by rw [if_neg hs, if_pos h]⟩

/-- Witness for C3: a token expired at 0, checked at time 1, with a
signature that does not even match the verifying secret. -/
theorem validate_access_token_expired_fails_witness :
    (({ claims := { sub := 1, email := "x@y.z", role := "user", tier := "free"
                    exp := 0, iat := -60, jti := none }
        sig := "other" } : Token).claims.exp < 1)
    ∧ ∃ err, validate_access_token env0 1
        { claims := { sub := 1, email := "x@y.z", role := "user", tier := "free"
                      exp := 0, iat := -60, jti := none }
          sig := "other" } = Except.error err :=
  ⟨by decide,
   validate_access_token_expired_fails env0 1
     { claims := { sub := 1, email := "x@y.z", role := "user", tier := "free"
                   exp := 0, iat := -60, jti := none }
       sig := "other" } (by decide)⟩

/-- Claim C4: for every (user_id, email, role, tier), validating a
token just produced by create_access_token succeeds, the produced
claims carry exactly the inputs, and expiry is strictly after
issuance (given the configured positive lifetime, 15 by default). -/
theorem create_access_token_roundtrip (e : Env) (now : Int) (jti : Nat)
    (uid : Int) (email role tier : String)
    (hm : 0 < access_token_expiry_minutes e) :
    validate_access_token e now (create_access_token e now jti uid email role tier)
      = Except.ok (create_access_token e now jti uid email role tier).claims
    ∧ (create_access_token e now jti uid email role tier).claims.sub = uid
    ∧ (create_access_token e now jti uid email role tier).claims.email = email
    ∧ (create_access_token e now jti uid email role tier).claims.role = role
    ∧ (create_access_token e now jti uid email role tier).claims.tier = tier
    ∧ (create_access_token e now jti uid email role tier).claims.iat
        < (create_access_token e now jti uid email role tier).claims.exp := by
  refine ⟨validate_create_access_ok e now jti uid email role tier (le_of_lt hm),
    rfl, rfl, rfl, rfl, ?_⟩
  simp only [create_access_token]
  omega

/-- Witness for C4 at user 42 in env0 (default 15-minute lifetime). -/
theorem create_access_token_roundtrip_witness :
    (0 < access_token_expiry_minutes env0)
    ∧ (validate_access_token env0 5 (create_access_token env0 5 3 42 "t@e.c" "user" "free")
         = Except.ok (create_access_token env0 5 3 42 "t@e.c" "user" "free").claims
       ∧ (create_access_token env0 5 3 42 "t@e.c" "user" "free").claims.sub = 42
       ∧ (create_access_token env0 5 3 42 "t@e.c" "user" "free").claims.email = "t@e.c"
       ∧ (create_access_token env0 5 3 42 "t@e.c" "user" "free").claims.role = "user"
       ∧ (create_access_token env0 5 3 42 "t@e.c" "user" "free").claims.tier = "free"
       ∧ (create_access_token env0 5 3 42 "t@e.c" "user" "free").claims.iat
           < (create_access_token env0 5 3 42 "t@e.c" "user" "free").claims.exp) :=
  ⟨by decide, create_access_token_roundtrip env0 5 3 42 "t@e.c" "user" "free" (by decide)⟩

/-- take_verifier on a store without the state leaves the store
unchanged and returns none. -/
theorem take_verifier_not_found (now : Nat) (store : List (String × StateEntry))
    (state : String) (hfind : store.find? (fun p => p.1 == state) = none) :
    take_verifier now store state = (store, none) := by
  unfold take_verifier
  rw [hfind]

/-- take_verifier on a store holding the state always removes its
entry, whatever the age check decides. -/
theorem take_verifier_found_fst (now : Nat) (store : List (String × StateEntry))
    (state : String) (entry : String × StateEntry)
    (hfind : store.find? (fun p => p.1 == state) = some entry) :
    (take_verifier now store state).1 = store.filter (fun p => !(p.1 == state)) := by
  unfold take_verifier
  rw [hfind]
  by_cases hc : STATE_TTL_SECS < (now - entry.2.created_at) / nanosPerSec
  · exact congrArg Prod.fst (if_pos hc)
  · exact congrArg Prod.fst (if_neg hc)

/-- take_verifier on a store holding the state returns the verifier
exactly when the whole elapsed seconds do not exceed the TTL. -/
theorem take_verifier_found_snd (now : Nat) (store : List (String × StateEntry))
    (state : String) (entry : String × StateEntry)
    (hfind : store.find? (fun p => p.1 == state) = some entry) :
    (take_verifier now store state).2
      = if STATE_TTL_SECS < (now - entry.2.created_at) / nanosPerSec then none
        else some entry.2.verifier := by
  unfold take_verifier
  rw [hfind]
  show (if STATE_TTL_SECS < (now - entry.2.created_at) / nanosPerSec then
      (store.filter (fun p => !(p.1 == state)), (none : Option String))
    else (store.filter (fun p => !(p.1 == state)), some entry.2.verifier)).2 = _
  split <;> rfl

/-- A filter that drops every entry keyed by the state leaves nothing
for a later lookup of that state to find. -/
theorem find_filtered_state_none (store : List (String × StateEntry))
    (state : String) :
    (store.filter (fun p => !(p.1 == state))).find? (fun p => p.1 == state)
      = none := by
  rw [List.find?_eq_none]
  intro x hx
  have hfx := (List.mem_filter.mp hx).2
  simp only [Bool.not_eq_true'] at hfx
  simp [hfx]

/-- Claim C5: taking a CSRF state is single-use — once a take for a
state has returned its verifier, a second take for the same state on
the resulting store, with no intervening store of that state, returns
none. -/
theorem take_verifier_single_use (now now2 : Nat)
    (store : List (String × StateEntry)) (state v : String)
    (h : (take_verifier now store state).2 = some v) :
    (take_verifier now2 (take_verifier now store state).1 state).2 = none := by
  cases hfind : store.find? (fun p => p.1 == state) with
  | none =>
    rw [take_verifier_not_found now store state hfind] at h
    cases h
  | some entry =>
    rw [take_verifier_found_fst now store state entry hfind,
      take_verifier_not_found now2 _ state (find_filtered_state_none store state)]

/-- Witness for C5: a freshly stored state is taken once with its
verifier and a second take returns none. -/
theorem take_verifier_single_use_witness :
    ((take_verifier 5 [("st", { verifier := "v", created_at := 0 })] "st").2 = some "v")
    ∧ (take_verifier 6
        (take_verifier 5 [("st", { verifier := "v", created_at := 0 })] "st").1
        "st").2 = none :=
  ⟨by decide,
   take_verifier_single_use 5 6 [("st", { verifier := "v", created_at := 0 })] "st" "v"
     (by decide)⟩

/-- Counterexample to claim C6 as stated: an entry created at instant
0 and taken 600.5 seconds later — strictly after the 600-second TTL
has elapsed — is still returned, because the code compares whole
elapsed seconds (600) against the TTL with a strict inequality. -/
theorem take_verifier_ttl_window_cex :
    STATE_TTL_SECS * nanosPerSec < 600500000000 - 0
    ∧ (take_verifier 600500000000
        [("st", { verifier := "v", created_at := 0 })] "st").2 = some "v" := by
  exact ⟨by decide, by decide⟩

/-- Claim C6 as amended: a take performed once at least 601 whole
seconds have elapsed since the entry was created returns none, with no
intervening store call needed — the rejection is computed inside
take_verifier itself. -/
theorem take_verifier_after_full_ttl_none (now : Nat)
    (store : List (String × StateEntry)) (state : String)
    (h : ∀ p ∈ store, p.1 = state →
      (STATE_TTL_SECS + 1) * nanosPerSec ≤ now - p.2.created_at) :
    (take_verifier now store state).2 = none := by
  cases hfind : store.find? (fun p => p.1 == state) with
  | none => rw [take_verifier_not_found now store state hfind]
  | some entry =>
    have hmem := List.mem_of_find?_eq_some hfind
    have hkey : entry.1 = state := by
      have hp := List.find?_some hfind
      exact beq_iff_eq.mp hp
    have hle := h entry hmem hkey
    have hgt : STATE_TTL_SECS < (now - entry.2.created_at) / nanosPerSec := by
      have h1 : STATE_TTL_SECS + 1 ≤ (now - entry.2.created_at) / nanosPerSec := by
        rw [Nat.le_div_iff_mul_le (by decide : 0 < nanosPerSec)]
        exact hle
      omega
    rw [take_verifier_found_snd now store state entry hfind, if_pos hgt]

/-- Witness for the amended C6: an entry aged exactly 601 seconds is
rejected even though the store still contains it. -/
theorem take_verifier_after_full_ttl_none_witness :
    (take_verifier 601000000000
      [("st", { verifier := "v", created_at := 0 })] "st").2 = none :=
  take_verifier_after_full_ttl_none 601000000000
    [("st", { verifier := "v", created_at := 0 })] "st"
    (by
      intro p hp hk
      rw [List.mem_singleton] at hp
      subst hp
      decide)

/-- Counterexample to claim C7 as stated: with no user owning the
email (so the claim antecedent holds), a 5-character wrong password
makes login fail at request validation with a ValidationError, which
is not the uniform Unauthorized error the claim requires. -/
theorem login_short_password_validation_cex :
    (find_user_by_email [] "a@b.com" = none)
    ∧ (login (fun _ => true) (fun _ _ => false) env0 0 1 2 3 [] [] "a@b.com" "short").2.2
        = Except.error (AppError.validation "Validation failed"
            [("password", "Password must be at least 8 characters")])
    ∧ AppError.validation "Validation failed"
          [("password", "Password must be at least 8 characters")]
        ≠ AppError.unauthorized "Invalid email or password" := by
  exact ⟨rfl, rfl, by decide⟩

/-- Claim C7 as amended: once the request passes input validation
(valid-format email, password of at least 8 characters), every login
whose email matches no user, whose user carries no stored password
hash, or whose password fails verification fails with the same
Unauthorized error "Invalid email or password", leaving the store and
the cookies untouched. -/
theorem login_uniform_invalid_credentials
    (emailValid : String → Bool) (verify_password : String → String → Bool)
    (e : Env) (now : Int) (jtiA jtiR new_id : Nat)
    (users : List UserRow) (db : List RefreshRecord) (email password : String)
    (hv : emailValid email = true) (hp : 8 ≤ password.length)
    (hbad : match find_user_by_email users email with
            | none => True
            | some u =>
              match u.password_hash with
              | none => True
              | some ph => verify_password password ph = false) :
    login emailValid verify_password e now jtiA jtiR new_id users db email password
      = (db, none, Except.error (AppError.unauthorized "Invalid email or password")) := by
  have hval : validate_login_request emailValid email password = Except.ok () := by
    unfold validate_login_request
    simp [hv, Nat.not_lt.mpr hp]
  unfold login
  rw [hval]
  dsimp only
  cases hfind : find_user_by_email users email with
  | none => rfl
  | some u =>
    rw [hfind] at hbad
    dsimp only at hbad ⊢
    cases hph : u.password_hash with
    | none => rfl
    | some ph =>
      rw [hph] at hbad
      dsimp only at hbad
      simp [hbad]

/-- Witness for the amended C7 at an empty user table: a well-formed
request for an unknown email fails with the uniform error. -/
theorem login_uniform_invalid_credentials_witness :
    login (fun _ => true) (fun _ _ => false) env0 0 1 2 3 [] [] "a@b.com" "password"
      = ([], none, Except.error (AppError.unauthorized "Invalid email or password")) :=
  login_uniform_invalid_credentials (fun _ => true) (fun _ _ => false) env0 0 1 2 3 [] []
    "a@b.com" "password" rfl (by decide) (by trivial)

/-- Claim C8: logout always succeeds — the result is ok and a
cookie-clear is staged for every input, including a missing or invalid
credential and a failing revocation write; and when a valid credential
is present and the write goes through, every refresh row of the caller
is revoked afterwards. -/
theorem logout_always_succeeds (e : Env) (now : Int)
    (access_cookie : Option Token) (write_ok : Bool) (db : List RefreshRecord) :
    (logout e now access_cookie write_ok db).2.2 = Except.ok ()
    ∧ (logout e now access_cookie write_ok db).2.1 = PendingCookieAction.Clear
    ∧ (∀ token claims, access_cookie = some token →
        validate_access_token e now token = Except.ok claims →
        write_ok = true →
        ∀ rec ∈ (logout e now access_cookie write_ok db).1,
          rec.user_id = claims.sub → rec.revoked = true) := by
  refine ⟨rfl, rfl, ?_⟩
  intro token claims hacc hval hwok rec hmem hu
  subst hacc
  subst hwok
  unfold logout at hmem
  dsimp only at hmem
  rw [hval] at hmem
  dsimp only at hmem
  obtain ⟨x, hx, rfl⟩ := List.mem_map.mp hmem
  by_cases hc : x.user_id = claims.sub ∧ x.revoked = false
  · simp [hc]
  · rw [if_neg hc] at hu ⊢
    cases hrv : x.revoked
    · exact absurd ⟨hu, hrv⟩ hc
    · rfl

/-- Witness for C8: logging out with the valid tok0 credential and a
working store succeeds, and the single refresh row of the caller is revoked
afterwards. -/
theorem logout_always_succeeds_witness :
    ((logout env0 0 (some tok0) true db0).2.2 = Except.ok ())
    ∧ ({ id := 1, user_id := 7, token_hash := tok0, expires_at := 604800
         revoked := true } : RefreshRecord).revoked = true :=
  ⟨(logout_always_succeeds env0 0 (some tok0) true db0).1,
   (logout_always_succeeds env0 0 (some tok0) true db0).2.2 tok0 tok0.claims rfl rfl rfl
     { id := 1, user_id := 7, token_hash := tok0, expires_at := 604800, revoked := true }
     (by decide) rfl⟩

/-- Claim C2: the session middleware never rejects a request — on any
failure of the credential chain (no access credential, or an
invalid/expired one whose transparent refresh cannot complete) the
downstream handler still runs, with no Claims attached, and the
middleware produces the ordinary response of that handler. -/
theorem auth_middleware_never_rejects {A : Type}
    (e : Env) (now : Int) (jtiA jtiR new_id : Nat) (db : List RefreshRecord)
    (access_cookie refresh_cookie : Option Token)
    (handler : Option Claims → A × Option PendingCookieAction)
    (h : auth_chain_failed e now jtiA jtiR new_id db access_cookie refresh_cookie) :
    (auth_middleware e now jtiA jtiR new_id db access_cookie refresh_cookie handler).1
      = (handler none).1
    ∧ (auth_middleware_phase e now jtiA jtiR new_id db access_cookie refresh_cookie).claims
      = none := by
  have hphase : (auth_middleware_phase e now jtiA jtiR new_id db
      access_cookie refresh_cookie).claims = none := by
    rcases h with hnone | ⟨token, rfl, ⟨err, hverr⟩, hrest⟩
    · subst hnone
      rfl
    · unfold auth_middleware_phase
      dsimp only
      rw [hverr]
      dsimp only
      rcases hrest with rfl | ⟨rt, rfl, htr⟩
      · rfl
      · dsimp only
        rcases hq : try_transparent_refresh e now jtiA jtiR new_id db rt with ⟨db1, o⟩
        rw [hq] at htr
        dsimp only at htr
        subst htr
        rfl
  refine ⟨?_, hphase⟩
  unfold auth_middleware
  dsimp only
  rw [hphase]

/-- Witness for C2: a request with no credentials at all still runs
the handler anonymously. -/
theorem auth_middleware_never_rejects_witness :
    ((auth_middleware env0 0 1 2 3 [] none none
        (fun c => (c.isSome, none))).1
      = ((fun (c : Option Claims) =>
          (c.isSome, (none : Option PendingCookieAction))) none).1)
    ∧ (auth_middleware_phase env0 0 1 2 3 [] none none).claims = none :=
  auth_middleware_never_rejects env0 0 1 2 3 [] none none
    (fun c => (c.isSome, none)) (Or.inl rfl)

/-- Claim C10: the token codec does not distinguish refresh tokens
from access tokens — a token minted by create_refresh_token passes
validate_access_token while unexpired, yielding its embedded claims,
and a request presenting it as the access credential runs the handler
with exactly those claims attached. -/
theorem refresh_token_accepted_as_access_token {A : Type}
    (e : Env) (now now2 : Int) (jtiR jA jR nid : Nat)
    (uid : Int) (email role tier : String)
    (db : List RefreshRecord) (refresh_cookie : Option Token)
    (handler : Option Claims → A × Option PendingCookieAction)
    (h : now2 ≤ (create_refresh_token e now jtiR uid email role tier).2) :
    validate_access_token e now2 (create_refresh_token e now jtiR uid email role tier).1
      = Except.ok (create_refresh_token e now jtiR uid email role tier).1.claims
    ∧ (auth_middleware e now2 jA jR nid db
         (some (create_refresh_token e now jtiR uid email role tier).1)
         refresh_cookie handler).1
      = (handler (some (create_refresh_token e now jtiR uid email role tier).1.claims)).1 := by
  have hexp : ¬ (create_refresh_token e now jtiR uid email role tier).1.claims.exp < now2 := by
    have heq : (create_refresh_token e now jtiR uid email role tier).1.claims.exp
        = (create_refresh_token e now jtiR uid email role tier).2 := rfl
    omega
  have hv : validate_access_token e now2
      (create_refresh_token e now jtiR uid email role tier).1
      = Except.ok (create_refresh_token e now jtiR uid email role tier).1.claims := by
    unfold validate_access_token
    rw [if_neg (fun hne => hne rfl), if_neg hexp]
  refine ⟨hv, ?_⟩
  unfold auth_middleware auth_middleware_phase
  dsimp only
  rw [hv]

/-- Witness for C10: the concrete 7-day refresh token for user 7 is
accepted as the access credential at its last valid second. -/
theorem refresh_token_accepted_as_access_token_witness :
    ((604800 : Int) ≤ (create_refresh_token env0 0 11 7 "a@b.c" "user" "free").2)
    ∧ (validate_access_token env0 604800
          (create_refresh_token env0 0 11 7 "a@b.c" "user" "free").1
        = Except.ok (create_refresh_token env0 0 11 7 "a@b.c" "user" "free").1.claims
      ∧ (auth_middleware env0 604800 1 2 3 []
            (some (create_refresh_token env0 0 11 7 "a@b.c" "user" "free").1) none
            (fun c => (c.isSome, none))).1
        = ((fun (c : Option Claims) =>
            (c.isSome, (none : Option PendingCookieAction)))
            (some (create_refresh_token env0 0 11 7 "a@b.c" "user" "free").1.claims)).1) :=
  ⟨by decide,
   refresh_token_accepted_as_access_token env0 0 604800 11 1 2 3 7 "a@b.c" "user" "free"
     [] none (fun c => (c.isSome, none)) (by decide)⟩

/-- The lookup predicate of the credential store only reads the token
hash and the user id, which a revocation update leaves unchanged. -/
theorem refresh_pred_revoke (rid : Nat) (tok : Token) (uid : Int)
    (rec : RefreshRecord) :
    decide ((if rec.id = rid then { rec with revoked := true } else rec).token_hash = tok
      ∧ (if rec.id = rid then { rec with revoked := true } else rec).user_id = uid)
    = decide (rec.token_hash = tok ∧ rec.user_id = uid) := by
  by_cases hid : rec.id = rid
  · rw [if_pos hid]
  · rw [if_neg hid]

/-- Looking a token up after a revocation update finds the updated
image of whatever the lookup found before. -/
theorem find_refresh_record_revoke (db : List RefreshRecord) (rid : Nat)
    (tok : Token) (uid : Int) :
    find_refresh_record (revoke_by_id db rid) tok uid
      = (find_refresh_record db tok uid).map
          (fun rec => if rec.id = rid then { rec with revoked := true } else rec) := by
  unfold find_refresh_record revoke_by_id
  rw [List.find?_map]
  have hpg : ((fun rec : RefreshRecord =>
        decide (rec.token_hash = tok ∧ rec.user_id = uid)) ∘
      (fun rec => if rec.id = rid then { rec with revoked := true } else rec))
      = fun rec : RefreshRecord => decide (rec.token_hash = tok ∧ rec.user_id = uid) := by
    funext rec
    exact refresh_pred_revoke rid tok uid rec
  rw [hpg]

/-- Inversion of a successful transparent refresh: the refresh token
validated to its own claims, a non-revoked record was found for it,
and the results are the freshly minted pair, the claims of the new
access token, and the store with the old record revoked and the new
one inserted. -/
theorem try_refresh_success_inv (e : Env) (now : Int) (jtiA jtiR new_id : Nat)
    (db db2 : List RefreshRecord) (tok a r : Token) (c : Claims)
    (h : try_transparent_refresh e now jtiA jtiR new_id db tok = (db2, some (a, r, c))) :
    ∃ stored,
      validate_access_token e now tok = Except.ok tok.claims
      ∧ find_refresh_record db tok tok.claims.sub = some stored
      ∧ stored.revoked = false
      ∧ a = create_access_token e now jtiA tok.claims.sub tok.claims.email
              tok.claims.role tok.claims.tier
      ∧ r = (create_refresh_token e now jtiR tok.claims.sub tok.claims.email
              tok.claims.role tok.claims.tier).1
      ∧ c = a.claims
      ∧ db2 = insert_refresh_record (revoke_by_id db stored.id) tok.claims.sub r
                (create_refresh_token e now jtiR tok.claims.sub tok.claims.email
                  tok.claims.role tok.claims.tier).2 new_id := by
  unfold try_transparent_refresh at h
  cases hv : validate_access_token e now tok with
  | error err =>
    rw [hv] at h
    dsimp only at h
    simp at h
  | ok claims =>
    obtain ⟨hclaims, -, -⟩ := validate_ok_inv e now tok claims hv
    subst hclaims
    rw [hv] at h
    dsimp only at h
    cases hfind : find_refresh_record db tok tok.claims.sub with
    | none =>
      rw [hfind] at h
      dsimp only at h
      simp at h
    | some stored =>
      rw [hfind] at h
      dsimp only at h
      by_cases hrev : stored.revoked = true
      · rw [if_pos hrev] at h
        simp at h
      · rw [if_neg hrev] at h
        cases hva : validate_access_token e now
            (create_access_token e now jtiA tok.claims.sub tok.claims.email
              tok.claims.role tok.claims.tier) with
        | error err2 =>
          rw [hva] at h
          dsimp only at h
          simp at h
        | ok nc =>
          obtain ⟨hnc, -, -⟩ := validate_ok_inv e now _ nc hva
          subst hnc
          rw [hva] at h
          dsimp only at h
          injection h with h1 h2
          injection h2 with h3
          injection h3 with ha h4
          injection h4 with hr hc
          refine ⟨stored, rfl, rfl, by simpa using hrev, ha.symm, hr.symm, ?_, ?_⟩
          · rw [← hc, ← ha]
          · rw [← h1, hr]

/-- Claim C1: after a successful transparent refresh, the record of
the old refresh token is marked revoked, a later refresh attempt with
the old token returns nothing and leaves the store unchanged — so the
request proceeds anonymous — while a refresh attempt with the newly
issued refresh token succeeds. -/
theorem refresh_rotation_revokes_old_token
    (e : Env) (now now2 now3 : Int)
    (jtiA jtiR new_id jA2 jR2 nid2 jA3 jR3 nid3 : Nat)
    (db db2 : List RefreshRecord) (tok a r : Token) (c : Claims)
    (h : try_transparent_refresh e now jtiA jtiR new_id db tok = (db2, some (a, r, c)))
    (hfresh : ∀ rec ∈ db, rec.token_hash.claims.jti ≠ some jtiR)
    (hmacc : 0 ≤ access_token_expiry_minutes e)
    (hnow3 : now3 ≤ r.claims.exp) :
    (∃ rec, find_refresh_record db2 tok tok.claims.sub = some rec ∧ rec.revoked = true)
    ∧ try_transparent_refresh e now2 jA2 jR2 nid2 db2 tok = (db2, none)
    ∧ ((try_transparent_refresh e now3 jA3 jR3 nid3 db2 r).2).isSome = true := by
  obtain ⟨stored, hv, hfind, hrev, ha, hr, hc, hdb2⟩ :=
    try_refresh_success_inv e now jtiA jtiR new_id db db2 tok a r c h
  subst hr
  subst hdb2
  have hfind1 : find_refresh_record (revoke_by_id db stored.id) tok tok.claims.sub
      = some { stored with revoked := true } := by
    rw [find_refresh_record_revoke, hfind]
    simp
  have hfind2 : find_refresh_record
      (insert_refresh_record (revoke_by_id db stored.id) tok.claims.sub
        (create_refresh_token e now jtiR tok.claims.sub tok.claims.email
          tok.claims.role tok.claims.tier).1
        (create_refresh_token e now jtiR tok.claims.sub tok.claims.email
          tok.claims.role tok.claims.tier).2 new_id) tok tok.claims.sub
      = some { stored with revoked := true } := by
    unfold find_refresh_record insert_refresh_record
    unfold find_refresh_record at hfind1
    rw [List.find?_append, hfind1]
    rfl
  refine ⟨⟨{ stored with revoked := true }, hfind2, rfl⟩, ?_, ?_⟩
  · -- the old token is rejected by a later refresh attempt
    unfold try_transparent_refresh
    cases hv2 : validate_access_token e now2 tok with
    | error err => rfl
    | ok c2 =>
      obtain ⟨hc2, -, -⟩ := validate_ok_inv e now2 tok c2 hv2
      subst hc2
      dsimp only
      rw [hfind2]
      dsimp only
      rw [if_pos rfl]
  · -- the new refresh token is accepted by a later refresh attempt
    have hvr : validate_access_token e now3
        (create_refresh_token e now jtiR tok.claims.sub tok.claims.email
          tok.claims.role tok.claims.tier).1
        = Except.ok (create_refresh_token e now jtiR tok.claims.sub tok.claims.email
            tok.claims.role tok.claims.tier).1.claims := by
      unfold validate_access_token
      rw [if_neg (fun hne => hne rfl), if_neg (not_lt.mpr hnow3)]
    have hfindR1 : find_refresh_record (revoke_by_id db stored.id)
        (create_refresh_token e now jtiR tok.claims.sub tok.claims.email
          tok.claims.role tok.claims.tier).1
        (create_refresh_token e now jtiR tok.claims.sub tok.claims.email
          tok.claims.role tok.claims.tier).1.claims.sub = none := by
      unfold find_refresh_record revoke_by_id
      rw [List.find?_eq_none]
      intro x hx
      obtain ⟨y, hy, rfl⟩ := List.mem_map.mp hx
      intro hpx
      simp only [decide_eq_true_eq] at hpx
      have hyh : y.token_hash
          = (create_refresh_token e now jtiR tok.claims.sub tok.claims.email
              tok.claims.role tok.claims.tier).1 := by
        by_cases hid : y.id = stored.id
        · rw [if_pos hid] at hpx
          exact hpx.1
        · rw [if_neg hid] at hpx
          exact hpx.1
      exact hfresh y hy (by rw [hyh]; rfl)
    have hfindR : find_refresh_record
        (insert_refresh_record (revoke_by_id db stored.id) tok.claims.sub
          (create_refresh_token e now jtiR tok.claims.sub tok.claims.email
            tok.claims.role tok.claims.tier).1
          (create_refresh_token e now jtiR tok.claims.sub tok.claims.email
            tok.claims.role tok.claims.tier).2 new_id)
        (create_refresh_token e now jtiR tok.claims.sub tok.claims.email
          tok.claims.role tok.claims.tier).1
        (create_refresh_token e now jtiR tok.claims.sub tok.claims.email
          tok.claims.role tok.claims.tier).1.claims.sub
        = some { id := new_id, user_id := tok.claims.sub
                 token_hash := (create_refresh_token e now jtiR tok.claims.sub
                   tok.claims.email tok.claims.role tok.claims.tier).1
                 expires_at := (create_refresh_token e now jtiR tok.claims.sub
                   tok.claims.email tok.claims.role tok.claims.tier).2
                 revoked := false } := by
      unfold find_refresh_record insert_refresh_record
      unfold find_refresh_record at hfindR1
      rw [List.find?_append, hfindR1]
      dsimp only [Option.or]
      exact List.find?_cons_of_pos _ (decide_eq_true ⟨rfl, rfl⟩)
    unfold try_transparent_refresh
    rw [hvr]
    dsimp only
    rw [hfindR]
    dsimp only
    rw [if_neg (by simp)]
    rw [validate_create_access_ok e now3 jA3
      (create_refresh_token e now jtiR tok.claims.sub tok.claims.email
        tok.claims.role tok.claims.tier).1.claims.sub
      (create_refresh_token e now jtiR tok.claims.sub tok.claims.email
        tok.claims.role tok.claims.tier).1.claims.email
      (create_refresh_token e now jtiR tok.claims.sub tok.claims.email
        tok.claims.role tok.claims.tier).1.claims.role
      (create_refresh_token e now jtiR tok.claims.sub tok.claims.email
        tok.claims.role tok.claims.tier).1.claims.tier hmacc]
    rfl

/-- Witness for C1: the concrete refresh of tok0 at time 0 revokes the
old row, a second attempt with tok0 at time 1 fails leaving the store
unchanged, and an attempt with the new refresh token at its expiry
second succeeds. -/
theorem refresh_rotation_revokes_old_token_witness :
    (∃ rec, find_refresh_record db2C tok0 tok0.claims.sub = some rec
      ∧ rec.revoked = true)
    ∧ try_transparent_refresh env0 1 20 21 5 db2C tok0 = (db2C, none)
    ∧ ((try_transparent_refresh env0 604800 30 31 6 db2C refreshC).2).isSome = true :=
  refresh_rotation_revokes_old_token env0 0 1 604800 10 11 2 20 21 5 30 31 6
    db0 db2C tok0 accessC refreshC accessC.claims
    (by decide) (by decide) (by decide) (by decide)

end DioxusAuth
